import Mathlib

/-!
Verification of the image-geometry resolver and batch orchestrator of the
hra-deepcell-experiments repository.

The Python sources are shallowly embedded as follows.

* Image geometry (`scr/cell_segmentation.py`): numpy arrays are modelled at
  the level of their shapes (`List Nat`, row-major order of axes).  Integer
  indexing with an `int` selector removes the indexed axis, a `slice(None)`
  selector keeps it, `np.squeeze` removes every axis of size 1, and
  `ndarray.reshape(a, b)` succeeds exactly when the element count is
  preserved.  Python `raise` is modelled with `Except String`.
* Composite building (`scr/cell_segmentation.py`, steps 7): 2-D pixel planes
  are modelled as a shape plus an index function; the `astype(np.float32)`
  cast is abstracted as a caller-supplied cast function into a type with a
  zero (`np.zeros_like(..., dtype=np.float32)` supplies the zero band).
* Batch orchestration (`src/run_inference_pipeline.py`): the per-sample
  outcome of the two external stages is an input of the model
  (`Except String _` per stage); the orchestrator itself is the code under
  verification.  Console output relevant to failure reporting is modelled as
  a list of printed lines.
* Annotation tables (`src/cell_annotations.py`): `pandas.sort_values` with
  its default kind `quicksort` gives no guarantee on the relative order of
  tied keys, so the population table is modelled relationally: the output is
  any descending-by-count permutation of the insertion-ordered rows.
-/

namespace DeepCell

/-- `scr/cell_segmentation.py`, `_infer_channel_axis` (lines 43-57):
`for ax, size in enumerate(shape): if size > required_max_idx: return ax`;
`return None` when the loop finds nothing. -/
def _infer_channel_axis (shape : List Nat) (required_max_idx : Nat) : Option Nat :=
  match shape with
  | [] => none
  | size :: rest =>
    if size > required_max_idx then some 0
    else (_infer_channel_axis rest required_max_idx).map (· + 1)

/-- One axis of the slicing selector built in `_extract_2d_channel`
(lines 77-86).  An axis is removed by integer indexing when it is the
channel axis (`selector[channel_axis] = int(channel_index)`) or when it is a
leading extra axis (`ax in range(img.ndim - 2)`, `ax != channel_axis`) of
size greater than 1 (`selector[ax] = 0`); every other axis keeps its
`slice(None)` selector. -/
def keepAxis (ndim chAxis ax size : Nat) : Bool :=
  if ax = chAxis then false
  else if ax + 2 < ndim && size > 1 then false
  else true

/-- Shape of `img[tuple(selector)]`: axes indexed by an integer disappear,
axes kept as `slice(None)` survive.  `ax` is the index of the first listed
axis inside the whole shape (the function recurses over the tail). -/
def applySelector (shape : List Nat) (ndim chAxis ax : Nat) : List Nat :=
  match shape with
  | [] => []
  | size :: rest =>
    (if keepAxis ndim chAxis ax size then [size] else [])
      ++ applySelector rest ndim chAxis (ax + 1)

/-- Shape of `np.squeeze`: every axis of size 1 is removed. -/
def squeezeShape (shape : List Nat) : List Nat :=
  shape.filter (fun s => s ≠ 1)

/-- `scr/cell_segmentation.py`, `_extract_2d_channel` (lines 60-92), at the
level of shapes.  The leading bounds check mirrors lines 72-75; the final
`if arr.ndim != 2: arr = arr.reshape(arr.shape[-2], arr.shape[-1])`
(lines 89-90) raises an `IndexError` when the squeezed array has fewer
than 2 dimensions (`arr.shape[-2]` on a short shape tuple) and a
`ValueError` when the element count cannot be preserved. -/
def _extract_2d_channel (shape : List Nat) (channel_axis channel_index : Nat) :
    Except String (List Nat) :=
  if channel_axis ≥ shape.length then
    .error "IndexError: axis out of range"
  else if channel_index ≥ shape.getD channel_axis 0 then
    .error "IndexError: channel index out of bounds"
  else
    let sliced := applySelector shape shape.length channel_axis 0
    let squeezed := squeezeShape sliced
    if squeezed.length = 2 then
      .ok squeezed
    else if squeezed.length ≥ 2 then
      let a := squeezed.getD (squeezed.length - 2) 0
      let b := squeezed.getD (squeezed.length - 1) 0
      if squeezed.prod = a * b then .ok [a, b]
      else .error "ValueError: cannot reshape array"
    else
      .error "IndexError: tuple index out of range"

/-- Observable side effects of `run_segmentation` after the geometry stage:
the QC preview written at step 6, the `cellsam_pipeline` collaborator call
at step 8, and the mask file written at step 9. -/
inductive SegEvent where
  | previewSaved
  | segmentCalled
  | maskWritten
deriving DecidableEq, Repr

/-- `scr/cell_segmentation.py`, `run_segmentation` steps 4-9
(lines 140-197), at the level of shapes.  Steps 1-3 (config and image
loading) supply the inputs: the loaded image shape and the two configured
channel indices.  The returned event list records, in order, the side
effects that were reached; a `raise` aborts before any of them.  On success
the composite shape is `np.stack([blank, a, b], axis=-1)`, appending a
3-band axis to the common plane shape. -/
def run_segmentation (shape : List Nat) (ch_a_idx ch_b_idx : Nat) :
    List SegEvent × Except String (List Nat) :=
  match _infer_channel_axis shape (max ch_a_idx ch_b_idx) with
  | none => ([], .error "IndexError: could not identify channel axis")
  | some channel_axis =>
    match _extract_2d_channel shape channel_axis ch_a_idx with
    | .error e => ([], .error e)
    | .ok channel_a =>
      match _extract_2d_channel shape channel_axis ch_b_idx with
      | .error e => ([], .error e)
      | .ok channel_b =>
        if channel_a ≠ channel_b then
          ([], .error "ValueError: channel shape mismatch")
        else
          ([.previewSaved, .segmentCalled, .maskWritten],
            .ok (channel_a ++ [3]))

/-- A 2-D pixel plane: the value-level model of an extracted channel. -/
structure Plane (α : Type) where
  height : Nat
  width : Nat
  pixel : Nat → Nat → α

/-- `ndarray.shape` of a 2-D plane. -/
def Plane.shape {α : Type} (p : Plane α) : Nat × Nat :=
  (p.height, p.width)

/-- The 3-band channel-last composite of step 7: index `(i, j, band)`. -/
structure Composite (β : Type) where
  height : Nat
  width : Nat
  band : Nat → Nat → Fin 3 → β

/-- `scr/cell_segmentation.py`, lines 154-155 and 174-180: the shape-equality
guard followed by `np.stack([blank, a.astype(float32), b.astype(float32)],
axis=-1)` with `blank = np.zeros_like(channel_a, dtype=np.float32)`.
`toFloat` abstracts the `astype(np.float32)` cast. -/
def build_composite {α β : Type} [Zero β] (toFloat : α → β)
    (a b : Plane α) : Except String (Composite β) :=
  if a.shape ≠ b.shape then
    .error "ValueError: channel shape mismatch"
  else
    .ok ⟨a.height, a.width, fun i j c =>
      if c.val = 0 then 0
      else if c.val = 1 then toFloat (a.pixel i j)
      else toFloat (b.pixel i j)⟩

def exceptDecEq {ε α : Type} [DecidableEq ε] [DecidableEq α] :
    (a b : Except ε α) → Decidable (a = b)
  | .error e1, .error e2 =>
    match decEq e1 e2 with
    | isTrue h => isTrue (by rw [h])
    | isFalse h => isFalse (fun hh => h (by cases hh; rfl))
  | .error _, .ok _ => isFalse (fun h => by cases h)
  | .ok _, .error _ => isFalse (fun h => by cases h)
  | .ok a1, .ok a2 =>
    match decEq a1 a2 with
    | isTrue h => isTrue (by rw [h])
    | isFalse h => isFalse (fun hh => h (by cases hh; rfl))

instance {ε α : Type} [DecidableEq ε] [DecidableEq α] : DecidableEq (Except ε α) :=
  exceptDecEq

/-- Input to one iteration of the batch loop of
`src/run_inference_pipeline.py`: the sample directory name (used as the
HuBMAP id) and the outcomes of the two external stage calls made inside
`process_single_sample` (lines 44-52 and 57-82).  An `.error` value stands
for the exception raised by the stage, carrying its message. -/
structure Sample where
  hubmap_id : String
  seg_result : Except String String
  ann_result : Except String Unit
deriving DecidableEq, Repr

/-- `src/run_inference_pipeline.py`, `process_single_sample` (lines 23-82):
each stage call sits in its own `try`; an exception is caught, its message
is printed, and `False` is returned, otherwise processing continues and
`True` is returned.  The result is the returned boolean together with the
failure lines printed by the two `except` blocks. -/
def process_single_sample (s : Sample) : Bool × List String :=
  match s.seg_result with
  | .error e => (false, ["Segmentation failed: " ++ e])
  | .ok _ =>
    match s.ann_result with
    | .error e => (false, ["Annotation failed: " ++ e])
    | .ok _ => (true, [])

/-- The data printed by the summary block of `run_pipeline` (lines 127-138):
the sample total, the success count, and the list of failed sample ids. -/
structure RunSummary where
  total : Nat
  succeeded : Nat
  failed : List String
deriving DecidableEq, Repr

/-- One iteration of the sample loop of `run_pipeline` (lines 115-125):
`success_count += 1` on success, otherwise
`failed_samples.append(hubmap_id)`. -/
def run_pipeline_step (acc : Nat × List String) (s : Sample) : Nat × List String :=
  if (process_single_sample s).1 then (acc.1 + 1, acc.2)
  else (acc.1, acc.2 ++ [s.hubmap_id])

/-- `src/run_inference_pipeline.py`, `run_pipeline` (lines 111-138): iterate
the samples in order, count successes, append the hubmap id of each failed
sample to `failed_samples`, and emit the final summary. -/
def run_pipeline (samples : List Sample) : RunSummary :=
  let r := samples.foldl run_pipeline_step (0, [])
  ⟨samples.length, r.1, r.2⟩

/-- One iteration of the loop, restricted to its console output. -/
def run_pipeline_log_step (log : List String) (s : Sample) : List String :=
  log ++ (process_single_sample s).2

/-- The failure lines printed while `run_pipeline` iterates the samples
(the output of the `except` blocks of `process_single_sample`), in order. -/
def run_pipeline_log (samples : List Sample) : List String :=
  samples.foldl run_pipeline_log_step []

/-- One entry returned by `Path.iterdir()`: a child name and whether it is a
directory.  The list order is the filesystem enumeration order. -/
structure DirEntry where
  name : String
  isDir : Bool
deriving DecidableEq, Repr

/-- `src/run_inference_pipeline.py`, line 103:
`sorted([d for d in input_root.iterdir() if d.is_dir()])`.  All children
share the parent path, so `Path` comparison is string comparison of the
names; `sorted` is modelled by insertion sort with `≤` on strings. -/
def discover_samples (listing : List DirEntry) : List String :=
  List.insertionSort (· ≤ ·) ((listing.filter (·.isDir)).map (·.name))

/-- `scr/run_inference_pipeline.py`, lines 76-77: the `main` loop iterates
`input_base.iterdir()` directly, keeping the filesystem enumeration order
and applying no sort. -/
def discover_samples_scr (listing : List DirEntry) : List String :=
  (listing.filter (·.isDir)).map (·.name)

/-- One entry of the `markers` list of a sample configuration
(`src/cell_annotations.py`, lines 69-81): either a mapping with optional
`name` and `marker` keys, or a plain string. -/
inductive MarkerCfg where
  | dictEntry (name : Option String) (marker : Option String)
  | strEntry (s : String)
deriving DecidableEq, Repr

/-- Python `a or b` on optional strings: an empty string is falsy. -/
def pyOr (a b : Option String) : Option String :=
  match a with
  | some s => if s = "" then b else some s
  | none => b

/-- `src/cell_annotations.py`, lines 74-81: a dict entry resolves to
`m.get("name") or m.get("marker") or None` and raises a `ValueError` when
that is falsy; any other entry is stringified. -/
def parse_marker (m : MarkerCfg) : Except String String :=
  match m with
  | .dictEntry name marker =>
    match pyOr (pyOr name marker) none with
    | some n => .ok n
    | none => .error "ValueError: marker entry missing name"
  | .strEntry s => .ok s

/-- The marker list loop of `run_annotation`: first failing entry raises. -/
def parse_markers (ms : List MarkerCfg) : Except String (List String) :=
  ms.mapM parse_marker

/-- The configuration fields of `config.yaml` read by `run_annotation`
(`src/cell_annotations.py`): `config.get("MPP", 0.0)` and the markers
list.  A missing field is `none`. -/
structure AnnotationConfig where
  MPP : Option Rat
  markers : List MarkerCfg

/-- `src/cell_annotations.py`, line 54: `mpp = float(config.get("MPP", 0.0))`.
The `float` conversion of the numeric default or value is exact. -/
def run_annotation_mpp (config : AnnotationConfig) : Rat :=
  config.MPP.getD 0

/-- The arguments `(mpp, all_markers)` that `run_annotation` passes to
`deepcell_types.predict` (lines 95-103), or the configuration error raised
while assembling them.  The MPP lookup itself has no failure path. -/
def run_annotation_predict_args (config : AnnotationConfig) :
    Except String (Rat × List String) :=
  match parse_markers config.markers with
  | .error e => .error e
  | .ok ms => .ok (run_annotation_mpp config, ms)

/-- One step of collecting `labels_by_celltype` keys: a `defaultdict`
acquires a new key at the first append under that key. -/
def first_encounter_step (acc : List String) (lab : String) : List String :=
  if lab ∈ acc then acc else acc ++ [lab]

/-- `src/cell_annotations.py`, lines 117-119: iterating the per-cell labels
in cell-id order and appending each label to `labels_by_celltype[label]`
makes the dict keys appear in first-encounter order of the cell types. -/
def first_encounter_types (labels : List String) : List String :=
  labels.foldl first_encounter_step []

/-- `len(labels_by_celltype[t])`: the number of cells labelled `t`. -/
def count_of (labels : List String) (t : String) : Nat :=
  labels.count t

/-- `int(np.max(mask))` (line 121): the mask is modelled as the flat list of
its integer cell-id pixels, background 0. -/
def num_cells_of (mask : List Nat) : Nat :=
  mask.foldl max 0

/-- One row of the population summary DataFrame (lines 124-134):
`Cell_type`, `Cell_Count`, `Percentages`. -/
structure PopRow where
  cell_type : String
  cell_count : Nat
  percentage : Rat
deriving DecidableEq, Repr

/-- The rows of the population summary before sorting (lines 124-130):
`pd.DataFrame.from_dict(pop_summary, orient="index")` preserves the
first-encounter key order, with `Percentages = 100 * len(v) / num_cells`. -/
def population_rows (labels : List String) (num_cells : Nat) : List PopRow :=
  (first_encounter_types labels).map
    (fun t => ⟨t, count_of labels t, 100 * (count_of labels t : Rat) / (num_cells : Rat)⟩)

/-- The table is sorted by `Cell_Count` in descending order. -/
def sorted_desc (rows : List PopRow) : Prop :=
  rows.Chain' (fun r s => s.cell_count ≤ r.cell_count)

/-- `src/cell_annotations.py`, lines 129-134:
`.sort_values("Cell_Count", ascending=False)` with the pandas default
`kind="quicksort"`, which guarantees no relative order among tied keys.
The produced table is therefore modelled relationally: any permutation of
the unsorted rows that is descending in `Cell_Count`. -/
def run_annotation_population (labels : List String) (num_cells : Nat)
    (out : List PopRow) : Prop :=
  (population_rows labels num_cells).Perm out ∧ sorted_desc out

/-! ### Characterization of `_infer_channel_axis` -/

theorem infer_some_iff (S : List Nat) (m : Nat) :
    ∀ ax, _infer_channel_axis S m = some ax ↔
      ax < S.length ∧ m < S.getD ax 0 ∧ ∀ j, j < ax → S.getD j 0 ≤ m := by
  induction S with
  | nil => intro ax; simp [_infer_channel_axis]
  | cons s rest ih =>
    intro ax
    by_cases hs : s > m
    · simp only [_infer_channel_axis, if_pos hs]
      constructor
      · intro h
        cases h
        exact ⟨Nat.succ_pos _, by simpa using hs, fun j hj => absurd hj (by omega)⟩
      · rintro ⟨_, _, hprev⟩
        cases ax with
        | zero => rfl
        | succ n =>
          have h0 := hprev 0 (Nat.succ_pos n)
          simp at h0
          omega
    · simp only [_infer_channel_axis, if_neg hs]
      cases ax with
      | zero =>
        simp only [Option.map_eq_some']
        constructor
        · rintro ⟨a, _, h⟩; omega
        · rintro ⟨_, h0, _⟩
          simp at h0
          omega
      | succ n =>
        simp only [Option.map_eq_some']
        constructor
        · rintro ⟨a, ha, han⟩
          have han' : a = n := by omega
          obtain ⟨h1, h2, h3⟩ := (ih a).mp ha
          subst han'
          refine ⟨by simpa using h1, by simpa using h2, ?_⟩
          intro j hj
          cases j with
          | zero => simpa using Nat.le_of_not_lt hs
          | succ k => simpa using h3 k (by omega)
        · rintro ⟨h1, h2, h3⟩
          refine ⟨n, (ih n).mpr ⟨by simpa using h1, by simpa using h2, ?_⟩, rfl⟩
          intro j hj
          simpa using h3 (j + 1) (by omega)

theorem infer_none_iff (S : List Nat) (m : Nat) :
    _infer_channel_axis S m = none ↔ ∀ j, j < S.length → S.getD j 0 ≤ m := by
  induction S with
  | nil => simp [_infer_channel_axis]
  | cons s rest ih =>
    by_cases hs : s > m
    · simp only [_infer_channel_axis, if_pos hs]
      constructor
      · intro h; cases h
      · intro h
        have h0 := h 0 (Nat.succ_pos _)
        simp at h0
        omega
    · simp only [_infer_channel_axis, if_neg hs, Option.map_eq_none', ih]
      constructor
      · intro h j hj
        cases j with
        | zero => simpa using Nat.le_of_not_lt hs
        | succ k => simpa using h k (by simpa using hj)
      · intro h j hj
        simpa using h (j + 1) (by simp only [List.length_cons]; omega)

/-- C2: for every shape `S` and bound `m`, `_infer_channel_axis S m`
returns the smallest axis whose size strictly exceeds `m` (earliest axis
wins), returns `none` exactly when no axis qualifies, and in that case
`run_segmentation` raises its channel-axis `IndexError` for the sample. -/
theorem resolve_channel_axis_spec (S : List Nat) (m : Nat) :
    (∀ ax, _infer_channel_axis S m = some ax ↔
      ax < S.length ∧ m < S.getD ax 0 ∧ ∀ j, j < ax → S.getD j 0 ≤ m)
    ∧ (_infer_channel_axis S m = none ↔ ∀ j, j < S.length → S.getD j 0 ≤ m)
    ∧ (∀ a b, max a b = m → _infer_channel_axis S m = none →
        (run_segmentation S a b).2
          = .error "IndexError: could not identify channel axis") := by
  refine ⟨infer_some_iff S m, infer_none_iff S m, ?_⟩
  intro a b hm hnone
  subst hm
  simp [run_segmentation, hnone]

/-- Witness: the spec example `S = (4, 1, 512, 512)`, `m = 2` resolves to
axis 0. -/
theorem resolve_channel_axis_spec_witness :
    _infer_channel_axis [4, 1, 512, 512] 2 = some 0 :=
  ((resolve_channel_axis_spec [4, 1, 512, 512] 2).1 0).mpr
    ⟨by decide, by decide, fun j hj => absurd hj (by omega)⟩

/-! ### Failure ordering within `run_segmentation` -/

/-- C10: whenever channel-axis resolution fails, a requested channel index
is out of bounds for the resolved axis, or the two extracted planes differ
in shape, `run_segmentation` raises before `cellsam_pipeline` is called and
before the mask file is written: its observable event list is empty. -/
theorem run_segmentation_geometry_failure (shape : List Nat) (a b : Nat)
    (h : _infer_channel_axis shape (max a b) = none
      ∨ (∃ ax, _infer_channel_axis shape (max a b) = some ax ∧
          (shape.getD ax 0 ≤ a ∨ shape.getD ax 0 ≤ b))
      ∨ (∃ ax pA pB, _infer_channel_axis shape (max a b) = some ax ∧
          _extract_2d_channel shape ax a = .ok pA ∧
          _extract_2d_channel shape ax b = .ok pB ∧ pA ≠ pB)) :
    (run_segmentation shape a b).1 = []
      ∧ ∃ e, (run_segmentation shape a b).2 = .error e := by
  rcases h with h | ⟨ax, hax, hle⟩ | ⟨ax, pA, pB, hax, hA, hB, hne⟩
  · exact ⟨by simp [run_segmentation, h],
      "IndexError: could not identify channel axis", by simp [run_segmentation, h]⟩
  · obtain ⟨_, hgt, _⟩ := (infer_some_iff shape (max a b) ax).mp hax
    have h1 := Nat.le_max_left a b
    have h2 := Nat.le_max_right a b
    rcases hle with hle | hle <;> omega
  · exact ⟨by simp [run_segmentation, hax, hA, hB, hne],
      "ValueError: channel shape mismatch", by simp [run_segmentation, hax, hA, hB, hne]⟩

/-- Witness for C10: on shape `(4, 1, 2, 2)` with requested channels 5 and
0, axis resolution fails, `run_segmentation` raises, and no segmentation or
mask-writing event happens. -/
theorem run_segmentation_geometry_failure_witness :
    (_infer_channel_axis [4, 1, 2, 2] (max 5 0) = none
      ∨ (∃ ax, _infer_channel_axis [4, 1, 2, 2] (max 5 0) = some ax ∧
          (([4, 1, 2, 2] : List Nat).getD ax 0 ≤ 5
            ∨ ([4, 1, 2, 2] : List Nat).getD ax 0 ≤ 0))
      ∨ (∃ ax pA pB, _infer_channel_axis [4, 1, 2, 2] (max 5 0) = some ax ∧
          _extract_2d_channel [4, 1, 2, 2] ax 5 = .ok pA ∧
          _extract_2d_channel [4, 1, 2, 2] ax 0 = .ok pB ∧ pA ≠ pB))
    ∧ ((run_segmentation [4, 1, 2, 2] 5 0).1 = []
      ∧ ∃ e, (run_segmentation [4, 1, 2, 2] 5 0).2 = .error e) :=
  ⟨Or.inl (by decide),
    run_segmentation_geometry_failure [4, 1, 2, 2] 5 0 (Or.inl (by decide))⟩

/-! ### Behavior of the geometry stage on 2-D images -/

/-- C4 (code evaluation): for every strictly 2-dimensional image and every
pair of requested channel indices, `run_segmentation` raises: either axis
resolution fails, an index is out of bounds, or `_extract_2d_channel`
reaches its reshape fallback on a 1-dimensional (or 0-dimensional) sliced
array, where `arr.shape[-2]` raises `IndexError: tuple index out of range`.
No 2-D image is ever segmented; the documented degenerate case of reusing
the 2-D plane for every channel does not exist in the code. -/
theorem run_segmentation_always_fails_on_2d (H W a b : Nat) :
    (run_segmentation [H, W] a b).1 = []
      ∧ ∃ e, (run_segmentation [H, W] a b).2 = .error e := by
  have hsel0 : applySelector [H, W] 2 0 0 = [W] := by
    simp [applySelector, keepAxis]
  have hsel1 : applySelector [H, W] 2 1 0 = [H] := by
    simp [applySelector, keepAxis]
  have hsq : ∀ n : Nat, (squeezeShape [n]).length ≤ 1 := by
    intro n
    by_cases hn : n = 1 <;> simp [squeezeShape, hn]
  have hext : ∀ ax idx, ax < 2 →
      ∃ e, _extract_2d_channel [H, W] ax idx = .error e := by
    intro ax idx hax
    have hone : ∀ n : Nat, ∃ e,
        (if (squeezeShape [n]).length = 2 then Except.ok (squeezeShape [n])
         else if (squeezeShape [n]).length ≥ 2 then
           (if (squeezeShape [n]).prod
              = (squeezeShape [n]).getD ((squeezeShape [n]).length - 2) 0
                * (squeezeShape [n]).getD ((squeezeShape [n]).length - 1) 0 then
             Except.ok [(squeezeShape [n]).getD ((squeezeShape [n]).length - 2) 0,
               (squeezeShape [n]).getD ((squeezeShape [n]).length - 1) 0]
           else Except.error "ValueError: cannot reshape array")
         else (Except.error "IndexError: tuple index out of range" : Except String (List Nat)))
        = .error e := by
      intro n
      have h1 := hsq n
      refine ⟨"IndexError: tuple index out of range", ?_⟩
      rw [if_neg (by omega), if_neg (by omega)]
    match ax, hax with
    | 0, _ =>
      by_cases hb : idx ≥ ([H, W] : List Nat).getD 0 0
      · exact ⟨"IndexError: channel index out of bounds",
          by simp only [_extract_2d_channel]; rw [if_neg (by simp), if_pos hb]⟩
      · obtain ⟨e, he⟩ := hone W
        refine ⟨e, ?_⟩
        simp only [_extract_2d_channel]
        rw [if_neg (by simp), if_neg hb]
        simpa [hsel0] using he
    | 1, _ =>
      by_cases hb : idx ≥ ([H, W] : List Nat).getD 1 0
      · exact ⟨"IndexError: channel index out of bounds",
          by simp only [_extract_2d_channel]; rw [if_neg (by simp), if_pos hb]⟩
      · obtain ⟨e, he⟩ := hone H
        refine ⟨e, ?_⟩
        simp only [_extract_2d_channel]
        rw [if_neg (by simp), if_neg hb]
        simpa [hsel1] using he
  cases hinf : _infer_channel_axis [H, W] (max a b) with
  | none =>
    exact ⟨by simp [run_segmentation, hinf],
      "IndexError: could not identify channel axis", by simp [run_segmentation, hinf]⟩
  | some ax =>
    have hax2 : ax < 2 := by
      have := ((infer_some_iff [H, W] (max a b)) ax).mp hinf
      simpa using this.1
    obtain ⟨e, he⟩ := hext ax a hax2
    exact ⟨by simp [run_segmentation, hinf, he], e, by simp [run_segmentation, hinf, he]⟩

/-- Evaluation of C4 at the failing input: a 2-D image of shape `(6, 3)`
with requested channels 0 and 2 raises the reshape-fallback `IndexError`
instead of reusing the plane for both channels. -/
theorem run_segmentation_2d_failing_input :
    run_segmentation [6, 3] 0 2
      = ([], .error "IndexError: tuple index out of range") := by decide

/-! ### Shape of extracted planes -/

/-- C3 (counterexample): a 2-dimensional image of shape `(6, 3)` with the
valid channel axis 0 and the in-bounds channel index 2 does not yield a
2-D plane of the trailing two sizes; `_extract_2d_channel` raises instead
(`arr.shape[-2]` on the 1-dimensional sliced array). -/
theorem extract_plane_fails_on_valid_2d_input :
    ([6, 3] : List Nat).length = 2 ∧ (0 : Nat) < 2 ∧ (2 : Nat) < 6 ∧
      _extract_2d_channel [6, 3] 0 2
        = .error "IndexError: tuple index out of range" := by decide

theorem squeezeShape_append (l1 l2 : List Nat) :
    squeezeShape (l1 ++ l2) = squeezeShape l1 ++ squeezeShape l2 := by
  simp [squeezeShape, List.filter_append]

theorem applySelector_append (xs ys : List Nat) (n c a : Nat) :
    applySelector (xs ++ ys) n c a
      = applySelector xs n c a ++ applySelector ys n c (a + xs.length) := by
  induction xs generalizing a with
  | nil => simp [applySelector]
  | cons x rest ih =>
    have hstep : applySelector ((x :: rest) ++ ys) n c a
        = (if keepAxis n c a x then [x] else [])
          ++ applySelector (rest ++ ys) n c (a + 1) := rfl
    have hstep2 : applySelector (x :: rest) n c a
        = (if keepAxis n c a x then [x] else [])
          ++ applySelector rest n c (a + 1) := rfl
    rw [hstep, ih (a + 1), hstep2, List.length_cons, List.append_assoc]
    have h : a + 1 + rest.length = a + (rest.length + 1) := by omega
    rw [h]

theorem squeeze_applySelector_extras (xs : List Nat) (n c : Nat) :
    ∀ a, (∀ x ∈ xs, 1 ≤ x) → a + xs.length + 2 ≤ n →
      squeezeShape (applySelector xs n c a) = [] := by
  induction xs with
  | nil => intro a _ _; rfl
  | cons x rest ih =>
    intro a hpos hn
    have hrest : squeezeShape (applySelector rest n c (a + 1)) = [] :=
      ih (a + 1) (fun y hy => hpos y (List.mem_cons_of_mem x hy))
        (by simp only [List.length_cons] at hn; omega)
    have hstep : applySelector (x :: rest) n c a
        = (if keepAxis n c a x then [x] else [])
          ++ applySelector rest n c (a + 1) := rfl
    rw [hstep, squeezeShape_append, hrest, List.append_nil]
    by_cases hc : a = c
    · simp [squeezeShape, keepAxis, hc]
    · have hax : a + 2 < n := by
        simp only [List.length_cons] at hn
        omega
      by_cases hx : x > 1
      · simp [squeezeShape, keepAxis, hc, hax, hx]
      · have hx1 : x = 1 := by
          have := hpos x (List.mem_cons_self x rest)
          omega
        simp [squeezeShape, keepAxis, hc, hx1]

theorem applySelector_trailing (p q n c : Nat) (hc : c + 2 < n)
    (hn : n ≥ 2) :
    applySelector [p, q] n c (n - 2) = [p, q] := by
  have h1 : ¬ (n - 2 = c) := by omega
  have h2 : ¬ (n - 2 + 2 < n) := by omega
  have h3 : ¬ (n - 2 + 1 = c) := by omega
  have h4 : ¬ (n - 2 + 1 + 2 < n) := by omega
  simp [applySelector, keepAxis, h1, h2, h3, h4]

/-- C3 (amended): for every image with at least three dimensions, all of
them positive, whose channel axis lies strictly before the trailing two
axes and whose trailing two sizes both exceed 1, an in-bounds channel
extraction returns exactly the trailing two sizes as a 2-D plane.  (The
original claim fails for 2-D images and for a channel axis within the
trailing two axes, where the reshape fallback raises `IndexError`.) -/
theorem extract_plane_trailing_shape (extras : List Nat) (p q : Nat)
    (channel_axis channel_index : Nat)
    (hax : channel_axis < extras.length)
    (hpos : ∀ x ∈ extras, 1 ≤ x)
    (hp : 1 < p) (hq : 1 < q)
    (hidx : channel_index < (extras ++ [p, q]).getD channel_axis 0) :
    _extract_2d_channel (extras ++ [p, q]) channel_axis channel_index
      = .ok [p, q] := by
  have hlen : (extras ++ [p, q]).length = extras.length + 2 := by simp
  have hsel : applySelector (extras ++ [p, q]) (extras.length + 2)
      channel_axis 0 = applySelector extras (extras.length + 2) channel_axis 0
        ++ applySelector [p, q] (extras.length + 2) channel_axis extras.length := by
    simpa using applySelector_append extras [p, q] (extras.length + 2) channel_axis 0
  have htrail : applySelector [p, q] (extras.length + 2) channel_axis extras.length
      = [p, q] := by
    have := applySelector_trailing p q (extras.length + 2) channel_axis
      (by omega) (by omega)
    simpa using this
  have hextras : squeezeShape
      (applySelector extras (extras.length + 2) channel_axis 0) = [] :=
    squeeze_applySelector_extras extras (extras.length + 2) channel_axis 0
      hpos (by omega)
  have hsq : squeezeShape (applySelector (extras ++ [p, q])
      (extras.length + 2) channel_axis 0) = [p, q] := by
    rw [hsel, htrail, squeezeShape_append, hextras, List.nil_append]
    have hp1 : ¬ (p = 1) := by omega
    have hq1 : ¬ (q = 1) := by omega
    simp [squeezeShape, hp1, hq1]
  simp only [_extract_2d_channel, hlen]
  rw [if_neg (by omega), if_neg (by omega), hsq]
  rfl

/-- Witness for the amended C3: the spec example, shape `(6, 1, 256, 256)`,
axis 0, channel index 3, yields a plane of shape `(256, 256)`. -/
theorem extract_plane_trailing_shape_witness :
    (0 : Nat) < ([6, 1] : List Nat).length ∧ (∀ x ∈ ([6, 1] : List Nat), 1 ≤ x) ∧
      (1 : Nat) < 256 ∧
      (3 : Nat) < (([6, 1] ++ [256, 256] : List Nat)).getD 0 0 ∧
      _extract_2d_channel ([6, 1] ++ [256, 256]) 0 3 = .ok [256, 256] :=
  ⟨by decide, by decide, by decide, by decide,
    extract_plane_trailing_shape [6, 1] 256 256 0 3 (by decide) (by decide)
      (by decide) (by decide) (by decide)⟩

/-! ### Composite building -/

/-- C5: `build_composite` fails exactly when the two planes differ in
shape, and on success it uses both planes at their own sizes: the composite
has the height and width of each input, so neither plane is resized,
cropped, or reshaped; on mismatch no composite value exists. -/
theorem build_composite_shape_guard {α β : Type} [Zero β] (toFloat : α → β)
    (a b : Plane α) :
    (a.shape ≠ b.shape →
      build_composite toFloat a b = .error "ValueError: channel shape mismatch")
    ∧ (∀ c, build_composite toFloat a b = .ok c →
        a.shape = b.shape ∧ c.height = a.height ∧ c.width = a.width
          ∧ c.height = b.height ∧ c.width = b.width) := by
  by_cases h : a.shape = b.shape
  · refine ⟨fun hne => absurd h hne, fun c hc => ?_⟩
    simp only [build_composite, h, ite_not, if_pos] at hc
    have hhw : a.height = b.height ∧ a.width = b.width := by
      have := h
      simp only [Plane.shape, Prod.mk.injEq] at this
      exact this
    cases hc
    exact ⟨h, rfl, rfl, hhw.1, hhw.2⟩
  · refine ⟨fun _ => by simp [build_composite, h], fun c hc => ?_⟩
    simp [build_composite, h] at hc

/-- Witness for C5: planes of shape `(100, 100)` and `(100, 99)` make
`build_composite` fail with the shape-mismatch error and no output. -/
theorem build_composite_shape_guard_witness :
    (⟨100, 100, fun _ _ => (0 : Nat)⟩ : Plane Nat).shape
        ≠ (⟨100, 99, fun _ _ => (0 : Nat)⟩ : Plane Nat).shape
      ∧ build_composite (fun n : Nat => (n : Int))
          ⟨100, 100, fun _ _ => 0⟩ ⟨100, 99, fun _ _ => 0⟩
        = .error "ValueError: channel shape mismatch" :=
  ⟨by decide,
    (build_composite_shape_guard (fun n : Nat => (n : Int))
      ⟨100, 100, fun _ _ => 0⟩ ⟨100, 99, fun _ _ => 0⟩).1 (by decide)⟩

/-- C6: for equal-shaped planes the composite is the `height × width × 3`
channel-last array with band 0 identically zero, band 1 the cast of plane
`a`, and band 2 the cast of plane `b`; the pixel values are exactly the
cast values, with no normalization applied. -/
theorem build_composite_bands {α β : Type} [Zero β] (toFloat : α → β)
    (a b : Plane α) (h : a.shape = b.shape) :
    ∃ c, build_composite toFloat a b = .ok c
      ∧ c.height = a.height ∧ c.width = a.width
      ∧ (∀ i j, c.band i j 0 = 0)
      ∧ (∀ i j, c.band i j 1 = toFloat (a.pixel i j))
      ∧ (∀ i j, c.band i j 2 = toFloat (b.pixel i j)) := by
  refine ⟨⟨a.height, a.width, fun i j c =>
      if c.val = 0 then 0
      else if c.val = 1 then toFloat (a.pixel i j)
      else toFloat (b.pixel i j)⟩,
    by simp [build_composite, h], rfl, rfl,
    fun i j => rfl, fun i j => rfl, fun i j => rfl⟩

/-- Witness for C6: two concrete constant `2 × 2` planes produce the
composite with zero band 0 and the cast planes in bands 1 and 2. -/
theorem build_composite_bands_witness :
    (⟨2, 2, fun _ _ => (5 : Nat)⟩ : Plane Nat).shape
        = (⟨2, 2, fun _ _ => (7 : Nat)⟩ : Plane Nat).shape
      ∧ ∃ c, build_composite (fun n : Nat => (n : Int))
            ⟨2, 2, fun _ _ => 5⟩ ⟨2, 2, fun _ _ => 7⟩ = .ok c
          ∧ c.height = 2 ∧ c.width = 2
          ∧ (∀ i j, c.band i j 0 = 0)
          ∧ (∀ i j, c.band i j 1 = (5 : Int))
          ∧ (∀ i j, c.band i j 2 = (7 : Int)) :=
  ⟨rfl, build_composite_bands (fun n : Nat => (n : Int))
    ⟨2, 2, fun _ _ => 5⟩ ⟨2, 2, fun _ _ => 7⟩ rfl⟩

/-! ### Missing MPP handling in `run_annotation` -/

/-- C9: a configuration without the `MPP` field produces no error of any
kind from `run_annotation`'s configuration handling: the microns-per-pixel
value silently defaults to 0 and is passed as such to the
`deepcell_types.predict` collaborator. -/
theorem run_annotation_missing_mpp (config : AnnotationConfig)
    (h : config.MPP = none) :
    run_annotation_mpp config = 0
      ∧ ∀ ms, parse_markers config.markers = .ok ms →
          run_annotation_predict_args config = .ok (0, ms) := by
  constructor
  · simp [run_annotation_mpp, h]
  · intro ms hms
    simp [run_annotation_predict_args, hms, run_annotation_mpp, h]

/-- Witness for C9: a config with no MPP and one plain marker string leads
to a successful `predict` call with `mpp = 0`. -/
theorem run_annotation_missing_mpp_witness :
    (⟨none, [.strEntry "CD4"]⟩ : AnnotationConfig).MPP = none
      ∧ run_annotation_mpp ⟨none, [.strEntry "CD4"]⟩ = 0
      ∧ ∀ ms, parse_markers ([.strEntry "CD4"] : List MarkerCfg) = .ok ms →
          run_annotation_predict_args ⟨none, [.strEntry "CD4"]⟩ = .ok (0, ms) :=
  ⟨rfl, run_annotation_missing_mpp ⟨none, [.strEntry "CD4"]⟩ rfl⟩

/-! ### Batch isolation in `run_pipeline` -/

theorem run_pipeline_foldl (samples : List Sample) :
    ∀ (n : Nat) (fs : List String),
      samples.foldl run_pipeline_step (n, fs)
        = (n + (samples.filter (fun s => (process_single_sample s).1)).length,
          fs ++ (samples.filter
            (fun s => !(process_single_sample s).1)).map (·.hubmap_id)) := by
  induction samples with
  | nil => intro n fs; simp
  | cons s rest ih =>
    intro n fs
    by_cases h : (process_single_sample s).1
    · simp [run_pipeline_step, h, ih, Nat.add_assoc, Nat.add_comm 1]
    · simp [run_pipeline_step, h, ih]

theorem filter_length_split (samples : List Sample) :
    (samples.filter (fun s => (process_single_sample s).1)).length
      + (samples.filter (fun s => !(process_single_sample s).1)).length
      = samples.length := by
  induction samples with
  | nil => rfl
  | cons s rest ih =>
    by_cases h : (process_single_sample s).1
    · simp [List.filter_cons, h]
      omega
    · simp [List.filter_cons, h]
      omega

theorem run_pipeline_log_foldl_mono (samples : List Sample) :
    ∀ (init : List String) (x : String), x ∈ init →
      x ∈ samples.foldl run_pipeline_log_step init := by
  induction samples with
  | nil => intro init x hx; simpa using hx
  | cons t rest ih =>
    intro init x hx
    exact ih _ x (List.mem_append_left _ hx)

theorem run_pipeline_log_complete (samples : List Sample) :
    ∀ (init : List String) (s : Sample), s ∈ samples →
      ∀ line ∈ (process_single_sample s).2,
        line ∈ samples.foldl run_pipeline_log_step init := by
  induction samples with
  | nil => intro _ s hs; cases hs
  | cons t rest ih =>
    intro init s hs line hl
    rcases List.mem_cons.mp hs with hst | hsr
    · subst hst
      exact run_pipeline_log_foldl_mono rest _ line
        (List.mem_append_right _ hl)
    · exact ih _ s hsr line hl

/-- C1 (counterexample): two five-sample batches that differ only in the
error message captured for the failing third sample produce identical
summaries whose `failed` list holds only the sample id `s3`.  The final
summary therefore does not list the failed sample together with its
captured error, as the claim requires: the error text is not part of the
summary at all. -/
theorem run_pipeline_summary_drops_error_text :
    run_pipeline
        [⟨"s1", .ok "m", .ok ()⟩, ⟨"s2", .ok "m", .ok ()⟩,
          ⟨"s3", .error "malformed configuration", .ok ()⟩,
          ⟨"s4", .ok "m", .ok ()⟩, ⟨"s5", .ok "m", .ok ()⟩]
      = run_pipeline
        [⟨"s1", .ok "m", .ok ()⟩, ⟨"s2", .ok "m", .ok ()⟩,
          ⟨"s3", .error "other error", .ok ()⟩,
          ⟨"s4", .ok "m", .ok ()⟩, ⟨"s5", .ok "m", .ok ()⟩]
      ∧ (run_pipeline
          [⟨"s1", .ok "m", .ok ()⟩, ⟨"s2", .ok "m", .ok ()⟩,
            ⟨"s3", .error "malformed configuration", .ok ()⟩,
            ⟨"s4", .ok "m", .ok ()⟩, ⟨"s5", .ok "m", .ok ()⟩]).failed = ["s3"]
      ∧ (run_pipeline
          [⟨"s1", .ok "m", .ok ()⟩, ⟨"s2", .ok "m", .ok ()⟩,
            ⟨"s3", .error "malformed configuration", .ok ()⟩,
            ⟨"s4", .ok "m", .ok ()⟩, ⟨"s5", .ok "m", .ok ()⟩]).succeeded = 4
      ∧ "malformed configuration" ≠ "other error" := by decide

/-- C1 (amended): `run_pipeline` attempts every sample — the summary totals
the whole input and classifies every sample as succeeded or failed, so a
per-sample failure never aborts the loop; `succeeded = total - |failed|`;
`failed` lists exactly the ids of the failing samples in order; each
captured error message is printed to the run log when the failure happens,
but it is not stored in the final summary. -/
theorem run_pipeline_batch_isolation (samples : List Sample) :
    (run_pipeline samples).total = samples.length
      ∧ (run_pipeline samples).succeeded
          = samples.length - (run_pipeline samples).failed.length
      ∧ (run_pipeline samples).failed
          = (samples.filter
              (fun s => !(process_single_sample s).1)).map (·.hubmap_id)
      ∧ ∀ s ∈ samples, ∀ line ∈ (process_single_sample s).2,
          line ∈ run_pipeline_log samples := by
  have hf := run_pipeline_foldl samples 0 []
  have hsplit := filter_length_split samples
  refine ⟨rfl, ?_, ?_, ?_⟩
  · show (samples.foldl run_pipeline_step (0, [])).1
        = samples.length - (samples.foldl run_pipeline_step (0, [])).2.length
    rw [hf]
    simp only [Nat.zero_add, List.nil_append, List.length_map]
    omega
  · show (samples.foldl run_pipeline_step (0, [])).2 = _
    rw [hf]
    simp
  · intro s hs line hl
    exact run_pipeline_log_complete samples [] s hs line hl

/-- Witness for the amended C1: the five-sample batch with a failing third
sample yields total 5, succeeded 4, failed exactly `s3`, and the captured
error text appears in the run log. -/
theorem run_pipeline_batch_isolation_witness :
    (run_pipeline
        [⟨"t1", .ok "m", .ok ()⟩, ⟨"t2", .ok "m", .ok ()⟩,
          ⟨"t3", .error "boom", .ok ()⟩,
          ⟨"t4", .ok "m", .ok ()⟩, ⟨"t5", .ok "m", .ok ()⟩]).total = 5
      ∧ (⟨"t3", .error "boom", .ok ()⟩ : Sample)
          ∈ [(⟨"t1", .ok "m", .ok ()⟩ : Sample), ⟨"t2", .ok "m", .ok ()⟩,
            ⟨"t3", .error "boom", .ok ()⟩,
            ⟨"t4", .ok "m", .ok ()⟩, ⟨"t5", .ok "m", .ok ()⟩]
      ∧ "Segmentation failed: boom"
          ∈ (process_single_sample ⟨"t3", .error "boom", .ok ()⟩).2
      ∧ "Segmentation failed: boom"
          ∈ run_pipeline_log
            [⟨"t1", .ok "m", .ok ()⟩, ⟨"t2", .ok "m", .ok ()⟩,
              ⟨"t3", .error "boom", .ok ()⟩,
              ⟨"t4", .ok "m", .ok ()⟩, ⟨"t5", .ok "m", .ok ()⟩] :=
  ⟨(run_pipeline_batch_isolation _).1.trans (by decide),
    by decide, by decide,
    (run_pipeline_batch_isolation
        [⟨"t1", .ok "m", .ok ()⟩, ⟨"t2", .ok "m", .ok ()⟩,
          ⟨"t3", .error "boom", .ok ()⟩,
          ⟨"t4", .ok "m", .ok ()⟩, ⟨"t5", .ok "m", .ok ()⟩]).2.2.2
      ⟨"t3", .error "boom", .ok ()⟩ (by decide)
      "Segmentation failed: boom" (by decide)⟩

/-! ### Sample discovery -/

/-- C7 (counterexample): the `scr` orchestrator variant iterates
`iterdir()` without sorting, so a filesystem enumeration that lists `b`
before `a` is visited in that unsorted order, not lexicographically. -/
theorem discover_samples_scr_unsorted :
    discover_samples_scr [⟨"b", true⟩, ⟨"a", true⟩] = ["b", "a"]
      ∧ ¬ (("b" : String) ≤ "a") := by
  refine ⟨by decide, ?_⟩
  rw [String.le_iff_toList_le]
  decide

/-- C7 (amended): the `src` orchestrator sorts the discovered immediate
sub-directories: `discover_samples` returns exactly the directory entries,
in lexicographic order, and its output is invariant under the filesystem
enumeration order, so two runs over an unchanged tree visit the samples in
the same order.  (The `scr` variant iterates them unsorted.) -/
theorem discover_samples_sorted_deterministic (l1 l2 : List DirEntry)
    (h : l1.Perm l2) :
    List.Sorted (· ≤ ·) (discover_samples l1)
      ∧ (discover_samples l1).Perm ((l1.filter (·.isDir)).map (·.name))
      ∧ discover_samples l1 = discover_samples l2 := by
  refine ⟨List.sorted_insertionSort _ _, List.perm_insertionSort _ _, ?_⟩
  have hp : ((l1.filter (·.isDir)).map (·.name)).Perm
      ((l2.filter (·.isDir)).map (·.name)) := (h.filter _).map _
  exact List.eq_of_perm_of_sorted
    ((List.perm_insertionSort _ _).trans
      (hp.trans (List.perm_insertionSort _ _).symm))
    (List.sorted_insertionSort _ _) (List.sorted_insertionSort _ _)

/-- Witness for the amended C7: two shuffled listings of the same tree give
the same sorted sample list `[a, b]`, with the plain file skipped. -/
theorem discover_samples_sorted_deterministic_witness :
    ([⟨"b", true⟩, ⟨"x.txt", false⟩, ⟨"a", true⟩] : List DirEntry).Perm
        [⟨"a", true⟩, ⟨"b", true⟩, ⟨"x.txt", false⟩]
      ∧ (List.Sorted (· ≤ ·)
          (discover_samples [⟨"b", true⟩, ⟨"x.txt", false⟩, ⟨"a", true⟩])
        ∧ (discover_samples
            [⟨"b", true⟩, ⟨"x.txt", false⟩, ⟨"a", true⟩]).Perm
            ((([⟨"b", true⟩, ⟨"x.txt", false⟩, ⟨"a", true⟩] :
              List DirEntry).filter (·.isDir)).map (·.name))
        ∧ discover_samples [⟨"b", true⟩, ⟨"x.txt", false⟩, ⟨"a", true⟩]
            = discover_samples [⟨"a", true⟩, ⟨"b", true⟩, ⟨"x.txt", false⟩]) :=
  ⟨by decide,
    discover_samples_sorted_deterministic
      [⟨"b", true⟩, ⟨"x.txt", false⟩, ⟨"a", true⟩]
      [⟨"a", true⟩, ⟨"b", true⟩, ⟨"x.txt", false⟩] (by decide)⟩

/-! ### Population summary table -/

theorem first_encounter_aux_mem (l : List String) :
    ∀ (acc : List String) (x : String),
      x ∈ l.foldl first_encounter_step acc ↔ x ∈ acc ∨ x ∈ l := by
  induction l with
  | nil => intro acc x; simp
  | cons a rest ih =>
    intro acc x
    by_cases h : a ∈ acc
    · rw [List.foldl_cons]
      show x ∈ rest.foldl first_encounter_step (first_encounter_step acc a) ↔ _
      rw [show first_encounter_step acc a = acc from by simp [first_encounter_step, h]]
      rw [ih acc x]
      constructor
      · rintro (hx | hx)
        · exact Or.inl hx
        · exact Or.inr (List.mem_cons_of_mem a hx)
      · rintro (hx | hx)
        · exact Or.inl hx
        · rcases List.mem_cons.mp hx with rfl | hx
          · exact Or.inl h
          · exact Or.inr hx
    · rw [List.foldl_cons]
      show x ∈ rest.foldl first_encounter_step (first_encounter_step acc a) ↔ _
      rw [show first_encounter_step acc a = acc ++ [a] from by
        simp [first_encounter_step, h]]
      rw [ih (acc ++ [a]) x]
      constructor
      · rintro (hx | hx)
        · rcases List.mem_append.mp hx with hx | hx
          · exact Or.inl hx
          · have hxa : x = a := by simpa using hx
            exact Or.inr (hxa ▸ List.mem_cons_self a rest)
        · exact Or.inr (List.mem_cons_of_mem a hx)
      · rintro (hx | hx)
        · exact Or.inl (List.mem_append_left _ hx)
        · rcases List.mem_cons.mp hx with rfl | hx
          · exact Or.inl (List.mem_append_right _ (by simp))
          · exact Or.inr hx

theorem first_encounter_aux_nodup (l : List String) :
    ∀ acc : List String, acc.Nodup →
      (l.foldl first_encounter_step acc).Nodup := by
  induction l with
  | nil => intro acc h; simpa using h
  | cons a rest ih =>
    intro acc h
    rw [List.foldl_cons]
    by_cases ha : a ∈ acc
    · rw [show first_encounter_step acc a = acc from by simp [first_encounter_step, ha]]
      exact ih acc h
    · rw [show first_encounter_step acc a = acc ++ [a] from by
        simp [first_encounter_step, ha]]
      refine ih _ ?_
      simp [List.nodup_append, h, ha]

theorem first_encounter_types_mem (labels : List String) (x : String) :
    x ∈ first_encounter_types labels ↔ x ∈ labels := by
  have := first_encounter_aux_mem labels [] x
  simpa [first_encounter_types] using this

theorem first_encounter_types_nodup (labels : List String) :
    (first_encounter_types labels).Nodup :=
  first_encounter_aux_nodup labels [] List.nodup_nil

theorem first_encounter_perm_dedup (labels : List String) :
    (first_encounter_types labels).Perm labels.dedup := by
  refine (List.perm_ext_iff_of_nodup (first_encounter_types_nodup labels)
    (List.nodup_dedup labels)).mpr ?_
  intro a
  rw [first_encounter_types_mem, List.mem_dedup]

theorem sum_counts_first_encounter (labels : List String) :
    ((first_encounter_types labels).map (fun t => count_of labels t)).sum
      = labels.length := by
  have hperm := (first_encounter_perm_dedup labels).map (fun t => count_of labels t)
  rw [hperm.sum_eq]
  simpa [count_of] using List.sum_map_count_dedup_eq_length labels

theorem sum_map_percentage (ts : List String) (f : String → Nat) (n : Rat) :
    (ts.map (fun t => 100 * (f t : Rat) / n)).sum
      = 100 * (((ts.map f).sum : Nat) : Rat) / n := by
  induction ts with
  | nil => simp
  | cons t rest ih =>
    simp only [List.map_cons, List.sum_cons, ih]
    push_cast
    ring

/-- C8 (counterexample): the percentage denominator is `int(np.max(mask))`,
not the number of counted cells.  With one labelled cell and a mask whose
maximum cell id is 2, the only table the code can produce has a percentage
column summing to 50, not 100 percent of the counted cells. -/
theorem population_percentage_counterexample :
    run_annotation_population ["T1"] (num_cells_of [0, 2, 1]) [⟨"T1", 1, 50⟩]
      ∧ (([⟨"T1", 1, (50 : Rat)⟩] : List PopRow).map (·.percentage)).sum = 50
      ∧ (50 : Rat) ≠ 100 := by
  have h1 : first_encounter_types ["T1"] = ["T1"] := by decide
  have h2 : count_of ["T1"] "T1" = 1 := by decide
  have h3 : num_cells_of [0, 2, 1] = 2 := by decide
  have hrows : population_rows ["T1"] (num_cells_of [0, 2, 1])
      = [⟨"T1", 1, 50⟩] := by
    simp only [population_rows, h1, h2, h3, List.map_cons, List.map_nil]
    norm_num
  refine ⟨⟨?_, ?_⟩, by simp, by norm_num⟩
  · rw [hrows]
  · simp [sorted_desc]

/-- C8 (amended): whenever the per-cell labels cover exactly the cell ids
`1 .. max(mask)` (so their number equals the mask maximum, as the
annotation collaborator contract provides), every population table the code
can emit has counts summing to the number of counted cells, a percentage
column summing to 100, and rows sorted by descending count.  The relative
order of rows with tied counts is not guaranteed: `sort_values` uses the
unstable pandas default `kind="quicksort"`, so the first-encountered tie
order of the original claim is not a property of the code. -/
theorem population_summary_spec (labels : List String) (mask : List Nat)
    (out : List PopRow) (h0 : labels ≠ [])
    (hlen : labels.length = num_cells_of mask)
    (hout : run_annotation_population labels (num_cells_of mask) out) :
    ((out.map (·.cell_count)).sum = labels.length)
      ∧ ((out.map (·.percentage)).sum = 100)
      ∧ sorted_desc out := by
  obtain ⟨hperm, hsort⟩ := hout
  have hrowsc : ((population_rows labels (num_cells_of mask)).map (·.cell_count))
      = (first_encounter_types labels).map (fun t => count_of labels t) := by
    simp [population_rows, List.map_map, Function.comp]
  have hcount : (out.map (·.cell_count)).sum = labels.length := by
    rw [← (hperm.map (·.cell_count)).sum_eq, hrowsc, sum_counts_first_encounter]
  refine ⟨hcount, ?_, hsort⟩
  have hrowsp : ((population_rows labels (num_cells_of mask)).map (·.percentage))
      = (first_encounter_types labels).map
          (fun t => 100 * (count_of labels t : Rat) / (num_cells_of mask : Rat)) := by
    simp [population_rows, List.map_map, Function.comp]
  rw [← (hperm.map (·.percentage)).sum_eq, hrowsp, sum_map_percentage,
    sum_counts_first_encounter, ← hlen]
  have hne : ((labels.length : Nat) : Rat) ≠ 0 := by
    rw [Nat.cast_ne_zero]
    exact fun hz => h0 (List.length_eq_zero.mp hz)
  rw [mul_div_assoc, div_self hne, mul_one]

/-- Witness for the amended C8: three labels over a mask with maximum cell
id 3 produce the descending table with counts 2 and 1 and percentage column
summing to 100. -/
theorem population_summary_spec_witness :
    (["T2", "T2", "T1"] : List String) ≠ []
      ∧ (["T2", "T2", "T1"] : List String).length = num_cells_of [3, 0, 1, 2]
      ∧ run_annotation_population ["T2", "T2", "T1"] (num_cells_of [3, 0, 1, 2])
          [⟨"T2", 2, 200 / 3⟩, ⟨"T1", 1, 100 / 3⟩]
      ∧ ((([⟨"T2", 2, (200 : Rat) / 3⟩, ⟨"T1", 1, (100 : Rat) / 3⟩] :
            List PopRow).map (·.cell_count)).sum = 3
        ∧ (([⟨"T2", 2, (200 : Rat) / 3⟩, ⟨"T1", 1, (100 : Rat) / 3⟩] :
            List PopRow).map (·.percentage)).sum = 100
        ∧ sorted_desc [⟨"T2", 2, 200 / 3⟩, ⟨"T1", 1, 100 / 3⟩]) := by
  have h1 : first_encounter_types ["T2", "T2", "T1"] = ["T2", "T1"] := by decide
  have h2 : count_of ["T2", "T2", "T1"] "T2" = 2 := by decide
  have h3 : count_of ["T2", "T2", "T1"] "T1" = 1 := by decide
  have h4 : num_cells_of [3, 0, 1, 2] = 3 := by decide
  have hpop : run_annotation_population ["T2", "T2", "T1"]
      (num_cells_of [3, 0, 1, 2]) [⟨"T2", 2, 200 / 3⟩, ⟨"T1", 1, 100 / 3⟩] := by
    constructor
    · rw [show population_rows ["T2", "T2", "T1"] (num_cells_of [3, 0, 1, 2])
        = [⟨"T2", 2, 200 / 3⟩, ⟨"T1", 1, 100 / 3⟩] from by
      simp only [population_rows, h1, h2, h3, h4, List.map_cons, List.map_nil]
      norm_num]
    · simp [sorted_desc]
  exact ⟨by decide, by decide, hpop,
    population_summary_spec ["T2", "T2", "T1"] [3, 0, 1, 2]
      [⟨"T2", 2, 200 / 3⟩, ⟨"T1", 1, 100 / 3⟩] (by decide) (by decide) hpop⟩

end DeepCell
